import Mathlib

/-!
Verification of the GFX_Lab2 spline / gondola simulation.

The development shallowly embeds the core of the repository:
the Catmull-Rom style spline (`Spline.h`, `Spline` translation unit) and
the gondola motion model (`Gondola.h`, `Gondola` translation unit).
Machine `float` values are modelled as real numbers; the framework vector
type `vec2` with its componentwise operations, `length` and `normalize`
are modelled as the Euclidean operations on a two-component real record.
GPU geometry buffers and drawing are display-only and carry no simulation
state, so they are not modelled.
-/

noncomputable section

/-- Model of the framework type `vec2`: a 2D vector of real numbers. -/
@[ext]
structure Vec2 where
  x : ℝ
  y : ℝ

instance : Add Vec2 := ⟨fun a b => ⟨a.x + b.x, a.y + b.y⟩⟩

instance : Sub Vec2 := ⟨fun a b => ⟨a.x - b.x, a.y - b.y⟩⟩

instance : Neg Vec2 := ⟨fun a => ⟨-a.x, -a.y⟩⟩

instance : HMul Vec2 ℝ Vec2 := ⟨fun v r => ⟨v.x * r, v.y * r⟩⟩

instance : HMul ℝ Vec2 Vec2 := ⟨fun r v => ⟨r * v.x, r * v.y⟩⟩

instance : HDiv Vec2 ℝ Vec2 := ⟨fun v r => ⟨v.x / r, v.y / r⟩⟩

/-- Model of the framework function `length`: the Euclidean norm of a `vec2`. -/
def Vec2.length (v : Vec2) : ℝ := Real.sqrt (v.x ^ 2 + v.y ^ 2)

/-- Model of the framework function `normalize`: `v` divided by its length. -/
def Vec2.normalize (v : Vec2) : Vec2 := v / Vec2.length v

/-- Embedding of the free function `Hermite` of the spline translation unit:
cubic Hermite interpolation with normalized segment position
`s = (t - t0) / (t1 - t0)` and the coefficient formulas written exactly as in
the source. -/
def Hermite (p0 v0 : Vec2) (t0 : ℝ) (p1 v1 : Vec2) (t1 t : ℝ) : Vec2 :=
  let s := (t - t0) / (t1 - t0)
  let a0 := p0
  let a1 := v0
  let a2 := (p1 - p0) * (3 : ℝ) / (t1 - t0) / (t1 - t0) - (v1 + (2 : ℝ) * v0) / (t1 - t0)
  let a3 := (p0 - p1) * (2 : ℝ) / (t1 - t0) ^ 3 + (v1 + v0) / (t1 - t0) ^ 2
  ((a3 * s + a2) * s + a1) * s + a0

/-- Embedding of class `Spline`: the control point list `cps_` and the knot
(parameter) list `ts_`.  The two GPU geometry members are display-only. -/
structure Spline where
  cps : List Vec2
  ts : List ℝ

/-- Access `ts_[i]` (out-of-range reads, which the C++ never performs on the
paths we verify, default to 0). -/
def Spline.knot (s : Spline) (i : ℕ) : ℝ := s.ts.getD i 0

/-- Access `cps_[i]` (out-of-range reads default to the origin). -/
def Spline.cp (s : Spline) (i : ℕ) : Vec2 := s.cps.getD i ⟨0, 0⟩

/-- Embedding of the segment-search loop of `Spline::evaluate`: starting at
index `i` with `fuel` iterations remaining, return the first index `j` with
`ts_[j] <= t && t <= ts_[j+1]`, or `none` when the loop falls through. -/
def Spline.findSegAux (s : Spline) (t : ℝ) : ℕ → ℕ → Option ℕ
  | _, 0 => none
  | i, fuel + 1 =>
    if s.knot i ≤ t ∧ t ≤ s.knot (i + 1) then some i
    else s.findSegAux t (i + 1) fuel

/-- Embedding of `Spline::evaluate`.  With fewer than 2 control points it
returns the origin; otherwise it scans segments `i = 0 .. size-2` and
Hermite-interpolates on the first segment containing `t`, with the
central-difference boundary tangents of the source; when no segment matches it
returns `cps_.back()`. -/
def Spline.evaluate (s : Spline) (t : ℝ) : Vec2 :=
  if s.cps.length < 2 then ⟨0, 0⟩
  else
    match s.findSegAux t 0 (s.cps.length - 1) with
    | some i =>
      let v0 := if 0 < i then (s.cp (i + 1) - s.cp (i - 1)) / (s.knot (i + 1) - s.knot (i - 1))
                else (⟨0, 0⟩ : Vec2)
      let v1 := if i < s.cps.length - 2 then (s.cp (i + 2) - s.cp i) / (s.knot (i + 2) - s.knot i)
                else (⟨0, 0⟩ : Vec2)
      Hermite (s.cp i) v0 (s.knot i) (s.cp (i + 1)) v1 (s.knot (i + 1)) t
    | none => s.cps.getLastD ⟨0, 0⟩

/-- Embedding of `Spline::addControlPoint`: append the point, with parameter
`0` for the first point and `ts_.back() + 1` afterwards.  (`Spline::update`
only refreshes GPU geometry and does not touch `cps_` / `ts_`.) -/
def Spline.addControlPoint (s : Spline) (cp : Vec2) : Spline :=
  let t := if s.cps.isEmpty then (0 : ℝ) else s.ts.getLastD 0 + 1
  { cps := s.cps ++ [cp], ts := s.ts ++ [t] }

/-- Embedding of `Spline::getKnots`: the knot list `ts_`. -/
def Spline.getKnots (s : Spline) : List ℝ := s.ts

/-- The value `getKnots().back()` read by `Gondola::animate`. -/
def Spline.lastKnot (s : Spline) : ℝ := s.getKnots.getLastD 0

/-- A spline built from the empty spline by a sequence of
`Spline::addControlPoint` calls, one per listed position. -/
def buildSpline (ps : List Vec2) : Spline :=
  ps.foldl Spline.addControlPoint ⟨[], []⟩

/-- Embedding of `enum GondolaState`. -/
inductive GondolaState where
  | Waiting
  | Started
  | Fallen
deriving DecidableEq

export GondolaState (Waiting Started Fallen)

/-- Embedding of the mutable state of class `Gondola` (the two GPU geometry
members are display-only and omitted). -/
structure GState where
  spline : Spline
  progressAlongSpline : ℝ
  velocity : ℝ
  energy : ℝ
  position : Vec2
  rotationAngle : ℝ
  state : GondolaState

/-- The constant `gondolaRadius_` of class `Gondola`. -/
def gondolaRadius : ℝ := 1

/-- The constant `GRAVITY` of `Gondola::animate`. -/
def GRAVITY : ℝ := 40

/-- The constant `EPSILON` of `Gondola::animate`. -/
def EPSILON : ℝ := 0.001

/-- Embedding of the `Gondola` constructor state initialization
(progress, velocity, energy, position, rotation, state). -/
def Gondola.init (sp : Spline) : GState :=
  { spline := sp, progressAlongSpline := 0, velocity := 0, energy := 0,
    position := ⟨0, 0⟩, rotationAngle := 0, state := Waiting }

/-- Embedding of `Gondola::derivative`: central finite difference of
`Spline::evaluate` with step `h = 0.001`. -/
def Gondola.derivative (sp : Spline) (t : ℝ) : Vec2 :=
  (sp.evaluate (t + 0.001) - sp.evaluate (t - 0.001)) / (2 * 0.001 : ℝ)

/-- Embedding of `Gondola::secondDerivative`: second central finite difference
of `Spline::evaluate` with step `h = 0.001`. -/
def Gondola.secondDerivative (sp : Spline) (t : ℝ) : Vec2 :=
  (sp.evaluate (t + 0.001) - (2 : ℝ) * sp.evaluate t + sp.evaluate (t - 0.001)) / (0.001 * 0.001 : ℝ)

/-- The local `normal` of `Gondola::animate` at parameter `t`: the left-rotated
normalized finite-difference tangent. -/
def Gondola.normalAt (sp : Spline) (t : ℝ) : Vec2 :=
  let nt := Gondola.derivative sp t / Vec2.length (Gondola.derivative sp t)
  ⟨-nt.y, nt.x⟩

/-- The value written to `velocity_` by `Gondola::animate` at parameter `t`:
`sqrt((2 * GRAVITY * (initialHeight - currentHeight)) / 2)` with the heights
of the source.  Caveat: on a strictly negative argument (current height above
the height at parameter 0) `Real.sqrt` returns 0, whereas the C++ float
`sqrt` yields NaN there — that case is treated separately below. -/
def Gondola.speedAt (sp : Spline) (t : ℝ) : ℝ :=
  Real.sqrt ((2 * GRAVITY *
    ((sp.evaluate 0 + Gondola.normalAt sp t * gondolaRadius).y -
     (sp.evaluate t + Gondola.normalAt sp t * gondolaRadius).y)) / 2)

/-- The local `curvature` of `Gondola::animate` at parameter `t`. -/
def Gondola.curvatureAt (sp : Spline) (t : ℝ) : ℝ :=
  (  (Gondola.derivative sp t).x * (Gondola.secondDerivative sp t).y
   - (Gondola.derivative sp t).y * (Gondola.secondDerivative sp t).x)
  / Vec2.length (Gondola.derivative sp t) ^ 3

/-- The local `totalForce` of `Gondola::animate` at parameter `t`:
`curvature * velocity_ * velocity_ + GRAVITY * normal.y`. -/
def Gondola.totalForceAt (sp : Spline) (t : ℝ) : ℝ :=
  Gondola.curvatureAt sp t * Gondola.speedAt sp t * Gondola.speedAt sp t +
    GRAVITY * (Gondola.normalAt sp t).y

/-- The updated `progressAlongSpline_` of `Gondola::animate`:
`t + (velocity_ * dt) / tangentLength`. -/
def Gondola.newProgressAt (sp : Spline) (t dt : ℝ) : ℝ :=
  t + Gondola.speedAt sp t * dt / Vec2.length (Gondola.derivative sp t)

/-- Embedding of `Gondola::start`: when `state_ == Waiting`, set progress to
`0.01`, reset velocity and rotation, place the body at the curve point offset
by the rotated normalized tangent, record the reference energy
`40 * r.y + 0.5`, and transition to `Started`; otherwise do nothing. -/
def Gondola.start (g : GState) : GState :=
  if g.state = Waiting then
    let r := g.spline.evaluate 0.01
    let T := Vec2.normalize (Gondola.derivative g.spline 0.01)
    let N : Vec2 := ⟨-T.y, T.x⟩
    { g with progressAlongSpline := 0.01, velocity := 0,
             position := r + N * gondolaRadius, rotationAngle := 0,
             energy := 40 * r.y + 0.5, state := Started }
  else g

/-- Embedding of `Gondola::animate`: a no-op unless `state_ == Started`; a
silent return when the finite-difference tangent is shorter than `EPSILON`;
otherwise recompute `velocity_`, transition to `Fallen` when the total force
is negative, and otherwise advance progress, place the body, rotate it, and
transition to `Fallen` when the new progress exceeds `getKnots().back()`. -/
def Gondola.animate (g : GState) (dt : ℝ) : GState :=
  if g.state = Started then
    let tangentLength := Vec2.length (Gondola.derivative g.spline g.progressAlongSpline)
    if tangentLength < EPSILON then g
    else
      let velocity := Gondola.speedAt g.spline g.progressAlongSpline
      if Gondola.totalForceAt g.spline g.progressAlongSpline < 0 then
        { g with velocity := velocity, state := Fallen }
      else
        let newProgress := g.progressAlongSpline + velocity * dt / tangentLength
        let g' := { g with velocity := velocity,
                           progressAlongSpline := newProgress,
                           position := g.spline.evaluate g.progressAlongSpline +
                             Gondola.normalAt g.spline g.progressAlongSpline * gondolaRadius,
                           rotationAngle := g.rotationAngle - velocity / gondolaRadius * dt }
        if newProgress > g.spline.getKnots.getLastD 0 then { g' with state := Fallen } else g'
  else g

/-- External operations on a gondola: the launch command and a clock step. -/
inductive GOp where
  | startOp : GOp
  | stepOp : ℝ → GOp

/-- Run a sequence of external operations on a gondola state. -/
def runOps (ops : List GOp) (g : GState) : GState :=
  ops.foldl (fun s op => match op with
    | GOp.startOp => Gondola.start s
    | GOp.stepOp dt => Gondola.animate s dt) g

/-- Two gondola states that agree on every component except possibly the
stored reference energy. -/
def agreeExceptEnergy (g₁ g₂ : GState) : Prop :=
  g₁.spline = g₂.spline ∧ g₁.progressAlongSpline = g₂.progressAlongSpline ∧
  g₁.velocity = g₂.velocity ∧ g₁.position = g₂.position ∧
  g₁.rotationAngle = g₂.rotationAngle ∧ g₁.state = g₂.state

/-- A flat two-point track: control points `(0,0)` and `(1,0)`. -/
def lineSpline : Spline := buildSpline [⟨0, 0⟩, ⟨1, 0⟩]

/-- A vertical two-point drop: control points `(0,0)` and `(0,-1)`. -/
def dropSpline : Spline := buildSpline [⟨0, 0⟩, ⟨0, -1⟩]

/-- A generic two-point spline used for clamping counterexamples. -/
def pairSpline : Spline := buildSpline [⟨0, 0⟩, ⟨5, 7⟩]

/-- A moving gondola halfway along the flat track. -/
def gLine : GState :=
  { spline := lineSpline, progressAlongSpline := 1 / 2, velocity := 0, energy := 0,
    position := ⟨0, 0⟩, rotationAngle := 0, state := Started }

/-- A moving gondola halfway along the vertical drop, with the stored world
position it had one step earlier. -/
def gDrop : GState :=
  { spline := dropSpline, progressAlongSpline := 1 / 2, velocity := 0, energy := 0,
    position := ⟨1, 0⟩, rotationAngle := 0, state := Started }

/-- A vertical two-point climb: control points `(0,0)` and `(0,1)`. -/
def climbSpline : Spline := buildSpline [⟨0, 0⟩, ⟨0, 1⟩]

/-- A moving gondola halfway up the vertical climb: its current height exceeds
the height at parameter 0. -/
def gClimb : GState :=
  { spline := climbSpline, progressAlongSpline := 1 / 2, velocity := 0, energy := 0,
    position := ⟨0, 0⟩, rotationAngle := 0, state := Started }

/-! Componentwise lemmas for the vector operations. -/

@[simp]
theorem Vec2.add_x (a b : Vec2) : (a + b).x = a.x + b.x := rfl

@[simp]
theorem Vec2.add_y (a b : Vec2) : (a + b).y = a.y + b.y := rfl

@[simp]
theorem Vec2.sub_x (a b : Vec2) : (a - b).x = a.x - b.x := rfl

@[simp]
theorem Vec2.sub_y (a b : Vec2) : (a - b).y = a.y - b.y := rfl

@[simp]
theorem Vec2.neg_x (a : Vec2) : (-a).x = -a.x := rfl

@[simp]
theorem Vec2.neg_y (a : Vec2) : (-a).y = -a.y := rfl

@[simp]
theorem Vec2.mulR_x (a : Vec2) (r : ℝ) : (a * r).x = a.x * r := rfl

@[simp]
theorem Vec2.mulR_y (a : Vec2) (r : ℝ) : (a * r).y = a.y * r := rfl

@[simp]
theorem Vec2.mulL_x (r : ℝ) (a : Vec2) : (r * a).x = r * a.x := rfl

@[simp]
theorem Vec2.mulL_y (r : ℝ) (a : Vec2) : (r * a).y = r * a.y := rfl

@[simp]
theorem Vec2.div_x (a : Vec2) (r : ℝ) : (a / r).x = a.x / r := rfl

@[simp]
theorem Vec2.div_y (a : Vec2) (r : ℝ) : (a / r).y = a.y / r := rfl

/-- Length of a horizontal vector with nonnegative x component. -/
theorem Vec2.length_horiz (x : ℝ) (hx : 0 ≤ x) : Vec2.length ⟨x, 0⟩ = x := by
  have h : ((⟨x, 0⟩ : Vec2).x ^ 2 + (⟨x, 0⟩ : Vec2).y ^ 2) = x ^ 2 := by simp
  rw [Vec2.length, h, Real.sqrt_sq hx]

/-- Length of a vertical vector with nonpositive y component. -/
theorem Vec2.length_vert_neg (y : ℝ) (hy : y ≤ 0) : Vec2.length ⟨0, y⟩ = -y := by
  have h : ((⟨0, y⟩ : Vec2).x ^ 2 + (⟨0, y⟩ : Vec2).y ^ 2) = (-y) ^ 2 := by simp
  rw [Vec2.length, h, Real.sqrt_sq (by linarith)]

/-- Length of a vertical vector with nonnegative y component. -/
theorem Vec2.length_vert_pos (y : ℝ) (hy : 0 ≤ y) : Vec2.length ⟨0, y⟩ = y := by
  have h : ((⟨0, y⟩ : Vec2).x ^ 2 + (⟨0, y⟩ : Vec2).y ^ 2) = y ^ 2 := by simp
  rw [Vec2.length, h, Real.sqrt_sq hy]

/-! Values of the Hermite polynomial at segment endpoints. -/

/-- At the left endpoint the Hermite segment evaluates to its left control
point, for any tangents and any knot values. -/
theorem Hermite_at_left (p0 v0 p1 v1 : Vec2) (t0 t1 : ℝ) :
    Hermite p0 v0 t0 p1 v1 t1 t0 = p0 := by
  unfold Hermite
  ext <;> simp

/-- At the right endpoint of a unit-length knot interval the Hermite segment
evaluates to its right control point, for any tangents. -/
theorem Hermite_at_right_unit (p0 v0 p1 v1 : Vec2) (t0 : ℝ) :
    Hermite p0 v0 t0 p1 v1 (t0 + 1) (t0 + 1) = p1 := by
  unfold Hermite
  have h : t0 + 1 - t0 = 1 := by ring
  ext <;> simp [h] <;> ring_nf

/-! Structure of splines built by repeated `addControlPoint`. -/

/-- Adding a control point appends it and appends the next integer knot,
assuming the knots so far are `0, 1, …, size-1`. -/
theorem addControlPoint_inv (s : Spline) (p : Vec2)
    (h : s.ts = (List.range s.cps.length).map (Nat.cast : ℕ → ℝ)) :
    (s.addControlPoint p).cps = s.cps ++ [p] ∧
      (s.addControlPoint p).ts =
        (List.range (s.cps.length + 1)).map (Nat.cast : ℕ → ℝ) := by
  refine ⟨rfl, ?_⟩
  show s.ts ++ [if s.cps.isEmpty then (0 : ℝ) else s.ts.getLastD 0 + 1] =
    (List.range (s.cps.length + 1)).map (Nat.cast : ℕ → ℝ)
  by_cases hc : s.cps.isEmpty = true
  · have h0 : s.cps.length = 0 := by rwa [List.isEmpty_iff_length_eq_zero] at hc
    rw [h, h0, if_pos hc]
    simp [List.range_succ]
  · have h0 : s.cps.length ≠ 0 := fun h0 => hc (List.isEmpty_iff_length_eq_zero.mpr h0)
    obtain ⟨k, hk⟩ : ∃ k, s.cps.length = k + 1 := ⟨s.cps.length - 1, by omega⟩
    have hts : s.ts = (List.range k).map (Nat.cast : ℕ → ℝ) ++ [(k : ℝ)] := by
      rw [h, hk, List.range_succ, List.map_append]; rfl
    have hlast : s.ts.getLastD 0 = (k : ℝ) := by
      rw [hts]; exact List.getLastD_concat ..
    rw [if_neg hc, hlast, h, hk]
    nth_rewrite 2 [List.range_succ]
    rw [List.map_append]
    refine congrArg₂ (· ++ ·) rfl ?_
    have : ((k + 1 : ℕ) : ℝ) = (k : ℝ) + 1 := by push_cast; ring
    simp [this]

/-- Folding `addControlPoint` over a list of positions appends the positions
and extends the integer knot sequence. -/
theorem foldl_addControlPoint (ps : List Vec2) :
    ∀ s : Spline, s.ts = (List.range s.cps.length).map (Nat.cast : ℕ → ℝ) →
      (ps.foldl Spline.addControlPoint s).cps = s.cps ++ ps ∧
        (ps.foldl Spline.addControlPoint s).ts =
          (List.range (s.cps.length + ps.length)).map (Nat.cast : ℕ → ℝ) := by
  induction ps with
  | nil => intro s h; simpa using h
  | cons p ps ih =>
    intro s h
    have hstep := addControlPoint_inv s p h
    have hlen : (s.addControlPoint p).cps.length = s.cps.length + 1 := by
      rw [hstep.1]; simp
    have := ih (s.addControlPoint p) (by rw [hstep.2, hlen])
    refine ⟨?_, ?_⟩
    · rw [List.foldl_cons, this.1, hstep.1]; simp
    · rw [List.foldl_cons, this.2, hlen]
      have : s.cps.length + 1 + ps.length = s.cps.length + (ps.length + 1) := by omega
      rw [this]; rfl

/-- The control points of a built spline are exactly the inserted positions. -/
theorem buildSpline_cps (ps : List Vec2) : (buildSpline ps).cps = ps := by
  have := foldl_addControlPoint ps ⟨[], []⟩ (by simp)
  simpa [buildSpline] using this.1

/-- The knots of a built spline are the integers `0, 1, …, n-1`. -/
theorem buildSpline_ts (ps : List Vec2) :
    (buildSpline ps).ts = (List.range ps.length).map (Nat.cast : ℕ → ℝ) := by
  have := foldl_addControlPoint ps ⟨[], []⟩ (by simp)
  simpa [buildSpline] using this.2

/-- The indexed knot of a built spline is the index itself (in range). -/
theorem knot_build (ps : List Vec2) (j : ℕ) :
    (buildSpline ps).knot j = if j < ps.length then (j : ℝ) else 0 := by
  rw [Spline.knot, buildSpline_ts, List.getD_eq_getElem?_getD, List.getElem?_map]
  by_cases h : j < ps.length
  · rw [List.getElem?_range h, if_pos h]; rfl
  · rw [List.getElem?_eq_none (by simpa using Nat.le_of_not_lt h), if_neg h]; rfl

/-- The indexed control point of a built spline is the inserted position. -/
theorem cp_build (ps : List Vec2) (i : ℕ) :
    (buildSpline ps).cp i = ps.getD i ⟨0, 0⟩ := by
  rw [Spline.cp, buildSpline_cps]

/-- The last knot of a nonempty built spline is `n - 1`. -/
theorem lastKnot_build (ps : List Vec2) (h : ps ≠ []) :
    (buildSpline ps).lastKnot = ((ps.length - 1 : ℕ) : ℝ) := by
  have hn : ps.length - 1 + 1 = ps.length := Nat.succ_pred_eq_of_pos (List.length_pos.mpr h)
  rw [Spline.lastKnot, Spline.getKnots, buildSpline_ts, ← hn, List.range_succ, List.map_append]
  exact List.getLastD_concat ..

/-! Behavior of the segment-search loop. -/

/-- The loop with no iterations left falls through. -/
theorem findSegAux_zero (s : Spline) (t : ℝ) (i : ℕ) : s.findSegAux t i 0 = none := rfl

/-- One unfolding of the loop. -/
theorem findSegAux_succ (s : Spline) (t : ℝ) (i fuel : ℕ) :
    s.findSegAux t i (fuel + 1) =
      if s.knot i ≤ t ∧ t ≤ s.knot (i + 1) then some i
      else s.findSegAux t (i + 1) fuel := rfl

/-- When no segment condition can hold, the loop falls through. -/
theorem findSegAux_none (s : Spline) (t : ℝ)
    (h : ∀ k, ¬(s.knot k ≤ t ∧ t ≤ s.knot (k + 1))) :
    ∀ fuel i, s.findSegAux t i fuel = none := by
  intro fuel
  induction fuel with
  | zero => intro i; rfl
  | succ f ih =>
    intro i
    rw [findSegAux_succ, if_neg (h i)]
    exact ih (i + 1)

/-- Evaluation when the segment search falls through: the last control point. -/
theorem evaluate_of_none (s : Spline) (t : ℝ) (h2 : ¬ s.cps.length < 2)
    (hf : s.findSegAux t 0 (s.cps.length - 1) = none) :
    s.evaluate t = s.cps.getLastD ⟨0, 0⟩ := by
  rw [Spline.evaluate, if_neg h2, hf]

/-- Evaluation when the segment search stops at index `i`: the Hermite value of
segment `i` with the central-difference boundary tangents. -/
theorem evaluate_of_some (s : Spline) (t : ℝ) (i : ℕ) (h2 : ¬ s.cps.length < 2)
    (hf : s.findSegAux t 0 (s.cps.length - 1) = some i) :
    s.evaluate t =
      Hermite (s.cp i)
        (if 0 < i then (s.cp (i + 1) - s.cp (i - 1)) / (s.knot (i + 1) - s.knot (i - 1))
         else (⟨0, 0⟩ : Vec2))
        (s.knot i) (s.cp (i + 1))
        (if i < s.cps.length - 2 then (s.cp (i + 2) - s.cp i) / (s.knot (i + 2) - s.knot i)
         else (⟨0, 0⟩ : Vec2))
        (s.knot (i + 1)) t := by
  rw [Spline.evaluate, if_neg h2, hf]

/-- Evaluation with fewer than two control points: the origin, for every t. -/
theorem evaluate_small (s : Spline) (t : ℝ) (h : s.cps.length < 2) :
    s.evaluate t = ⟨0, 0⟩ := by
  rw [Spline.evaluate, if_pos h]

/-- On a built spline, the segment search at the integer parameter `m`
(`1 ≤ m ≤ n - 1`) stops at segment `m - 1`: scanning from `j ≤ m - 1`. -/
theorem findSegAux_knot_scan (ps : List Vec2) (m : ℕ) (h1 : 1 ≤ m)
    (h2 : m ≤ ps.length - 1) :
    ∀ d j fuel, j + d = m - 1 → j + fuel = ps.length - 1 →
      (buildSpline ps).findSegAux (m : ℝ) j fuel = some (m - 1) := by
  have hn : m + 1 ≤ ps.length := by omega
  intro d
  induction d with
  | zero =>
    intro j fuel hj hf
    have hj' : j = m - 1 := by omega
    obtain ⟨f, rfl⟩ : ∃ f, fuel = f + 1 := ⟨fuel - 1, by omega⟩
    rw [findSegAux_succ, if_pos, hj']
    constructor
    · rw [knot_build, if_pos (by omega)]
      exact_mod_cast Nat.cast_le.mpr (by omega)
    · rw [knot_build, if_pos (by omega)]
      have : j + 1 = m := by omega
      rw [this]
  | succ d ih =>
    intro j fuel hj hf
    obtain ⟨f, rfl⟩ : ∃ f, fuel = f + 1 := ⟨fuel - 1, by omega⟩
    rw [findSegAux_succ, if_neg]
    · exact ih (j + 1) f (by omega) (by omega)
    · rintro ⟨-, hright⟩
      rw [knot_build, if_pos (by omega)] at hright
      have : (m : ℝ) ≤ ((j + 1 : ℕ) : ℝ) := hright
      have : m ≤ j + 1 := by exact_mod_cast this
      omega

/-- On a built spline with at least two points, the segment search at the
integer parameter `0` stops at segment `0`. -/
theorem findSegAux_knot_zero (ps : List Vec2) (h2 : 2 ≤ ps.length) :
    (buildSpline ps).findSegAux ((0 : ℕ) : ℝ) 0 (ps.length - 1) = some 0 := by
  obtain ⟨f, hf⟩ : ∃ f, ps.length - 1 = f + 1 := ⟨ps.length - 2, by omega⟩
  rw [hf, findSegAux_succ, if_pos]
  constructor
  · rw [knot_build, if_pos (by omega)]
  · rw [knot_build, if_pos (by omega)]
    simp

/-! Evaluation of built splines. -/

/-- A built spline with at least two points interpolates: evaluation at the
integer parameter `i` returns the `i`-th inserted position. -/
theorem evaluate_at_nat (ps : List Vec2) (i : ℕ) (h2 : 2 ≤ ps.length)
    (hi : i < ps.length) :
    (buildSpline ps).evaluate ((i : ℕ) : ℝ) = ps.getD i ⟨0, 0⟩ := by
  have hlen : (buildSpline ps).cps.length = ps.length := by rw [buildSpline_cps]
  have h2' : ¬ (buildSpline ps).cps.length < 2 := by omega
  rcases i with _ | j
  · have hf : (buildSpline ps).findSegAux ((0 : ℕ) : ℝ) 0
        ((buildSpline ps).cps.length - 1) = some 0 := by
      rw [hlen]; exact findSegAux_knot_zero ps h2
    rw [evaluate_of_some _ _ 0 h2' hf]
    rw [show (buildSpline ps).knot 0 = ((0 : ℕ) : ℝ) by rw [knot_build, if_pos (by omega)]]
    rw [Hermite_at_left, cp_build]
  · have hf : (buildSpline ps).findSegAux ((j + 1 : ℕ) : ℝ) 0
        ((buildSpline ps).cps.length - 1) = some j := by
      rw [hlen]
      have := findSegAux_knot_scan ps (j + 1) (by omega) (by omega) j 0 (ps.length - 1)
        (by omega) (by omega)
      simpa using this
    rw [evaluate_of_some _ _ j h2' hf]
    have hkj : (buildSpline ps).knot j = (j : ℝ) := by
      rw [knot_build]; exact if_pos (by omega)
    have hkj1 : (buildSpline ps).knot (j + 1) = ((j + 1 : ℕ) : ℝ) := by
      rw [knot_build]; exact if_pos (by omega)
    rw [hkj, hkj1, show ((j + 1 : ℕ) : ℝ) = (j : ℝ) + 1 by push_cast; ring]
    rw [Hermite_at_right_unit, cp_build]

/-- A built spline clamps below the domain to the LAST control point: for any
t below the first knot the segment search falls through and `cps_.back()` is
returned. -/
theorem evaluate_below (ps : List Vec2) (h2 : 2 ≤ ps.length) (t : ℝ)
    (ht : t < (buildSpline ps).knot 0) :
    (buildSpline ps).evaluate t = ps.getLastD ⟨0, 0⟩ := by
  have hlen : (buildSpline ps).cps.length = ps.length := by rw [buildSpline_cps]
  have h2' : ¬ (buildSpline ps).cps.length < 2 := by omega
  have ht0 : t < 0 := by
    rw [knot_build, if_pos (by omega)] at ht
    simpa using ht
  have hnone : ∀ k, ¬((buildSpline ps).knot k ≤ t ∧ t ≤ (buildSpline ps).knot (k + 1)) := by
    rintro k ⟨hl, -⟩
    have hk : (0 : ℝ) ≤ (buildSpline ps).knot k := by
      rw [knot_build]
      split
      · simp
      · exact le_refl 0
    linarith
  rw [evaluate_of_none _ _ h2' (findSegAux_none _ _ hnone _ _), buildSpline_cps]

/-- A built spline clamps above the domain to the last control point. -/
theorem evaluate_above (ps : List Vec2) (h2 : 2 ≤ ps.length) (t : ℝ)
    (ht : (buildSpline ps).lastKnot < t) :
    (buildSpline ps).evaluate t = ps.getLastD ⟨0, 0⟩ := by
  have hlen : (buildSpline ps).cps.length = ps.length := by rw [buildSpline_cps]
  have h2' : ¬ (buildSpline ps).cps.length < 2 := by omega
  have hne : ps ≠ [] := by intro h; rw [h] at h2; simp at h2
  rw [lastKnot_build ps hne] at ht
  have hnone : ∀ k, ¬((buildSpline ps).knot k ≤ t ∧ t ≤ (buildSpline ps).knot (k + 1)) := by
    rintro k ⟨-, hr⟩
    have hk : (buildSpline ps).knot (k + 1) ≤ ((ps.length - 1 : ℕ) : ℝ) := by
      rw [knot_build]
      split
      · exact Nat.cast_le.mpr (by omega)
      · positivity
    linarith
  rw [evaluate_of_none _ _ h2' (findSegAux_none _ _ hnone _ _), buildSpline_cps]

/-- Closed form of evaluation on a two-point built spline inside the domain:
a cubic blend between the two control points with zero end tangents. -/
theorem evaluate_pair (p0 p1 : Vec2) (t : ℝ) (h0 : 0 ≤ t) (h1 : t ≤ 1) :
    (buildSpline [p0, p1]).evaluate t =
      ⟨p0.x + (p1.x - p0.x) * (3 * t ^ 2 - 2 * t ^ 3),
       p0.y + (p1.y - p0.y) * (3 * t ^ 2 - 2 * t ^ 3)⟩ := by
  have hlen : (buildSpline [p0, p1]).cps.length = 2 := by rw [buildSpline_cps]; rfl
  have h2' : ¬ (buildSpline [p0, p1]).cps.length < 2 := by omega
  have hk0 : (buildSpline [p0, p1]).knot 0 = 0 := by
    rw [knot_build, if_pos (by norm_num)]; exact Nat.cast_zero
  have hk1 : (buildSpline [p0, p1]).knot 1 = 1 := by
    rw [knot_build, if_pos (by norm_num)]; exact Nat.cast_one
  have hf : (buildSpline [p0, p1]).findSegAux t 0
      ((buildSpline [p0, p1]).cps.length - 1) = some 0 := by
    rw [hlen]
    show (buildSpline [p0, p1]).findSegAux t 0 (0 + 1) = some 0
    rw [findSegAux_succ]
    rw [if_pos ⟨by rw [hk0]; exact h0, by rw [hk1]; exact h1⟩]
  rw [evaluate_of_some _ _ 0 h2' hf]
  rw [if_neg (by omega), if_neg (show ¬ (0 : ℕ) < (buildSpline [p0, p1]).cps.length - 2 by
    rw [hlen]; decide)]
  rw [hk0, hk1, cp_build, cp_build]
  show Hermite p0 ⟨0, 0⟩ 0 p1 ⟨0, 0⟩ 1 t = _
  unfold Hermite
  ext <;> simp <;> ring

/-! Concrete facts about the flat track and the vertical drop. -/

/-- Evaluation on the flat track inside the domain. -/
theorem eval_line (t : ℝ) (h0 : 0 ≤ t) (h1 : t ≤ 1) :
    lineSpline.evaluate t = ⟨3 * t ^ 2 - 2 * t ^ 3, 0⟩ := by
  rw [lineSpline, evaluate_pair _ _ t h0 h1]
  ext <;> simp <;> ring

/-- Evaluation on the vertical drop inside the domain. -/
theorem eval_drop (t : ℝ) (h0 : 0 ≤ t) (h1 : t ≤ 1) :
    dropSpline.evaluate t = ⟨0, -(3 * t ^ 2 - 2 * t ^ 3)⟩ := by
  rw [dropSpline, evaluate_pair _ _ t h0 h1]
  ext <;> simp <;> ring

/-- The finite-difference tangent of the flat track at its midpoint. -/
theorem deriv_line : Gondola.derivative lineSpline (1 / 2) = ⟨1.499998, 0⟩ := by
  rw [Gondola.derivative]
  rw [eval_line (1 / 2 + 0.001) (by norm_num) (by norm_num),
    eval_line (1 / 2 - 0.001) (by norm_num) (by norm_num)]
  ext <;> simp <;> norm_num

/-- Length of that tangent. -/
theorem len_line : Vec2.length (Gondola.derivative lineSpline (1 / 2)) = 1.499998 := by
  rw [deriv_line]
  exact Vec2.length_horiz _ (by norm_num)

/-- The normal of the flat track at its midpoint points straight up. -/
theorem normal_line : Gondola.normalAt lineSpline (1 / 2) = ⟨0, 1⟩ := by
  rw [Gondola.normalAt, len_line, deriv_line]
  ext <;> simp <;> norm_num

/-- The recomputed speed on the flat track is zero: no height was lost. -/
theorem speed_line : Gondola.speedAt lineSpline (1 / 2) = 0 := by
  rw [Gondola.speedAt, normal_line]
  rw [eval_line 0 (by norm_num) (by norm_num), eval_line (1 / 2) (by norm_num) (by norm_num)]
  norm_num [gondolaRadius]

/-- The total force on the flat track at its midpoint is pure gravity. -/
theorem force_line : Gondola.totalForceAt lineSpline (1 / 2) = 40 := by
  rw [Gondola.totalForceAt, speed_line, normal_line]
  simp [GRAVITY]

/-- The finite-difference tangent of the vertical drop at its midpoint. -/
theorem deriv_drop : Gondola.derivative dropSpline (1 / 2) = ⟨0, -1.499998⟩ := by
  rw [Gondola.derivative]
  rw [eval_drop (1 / 2 + 0.001) (by norm_num) (by norm_num),
    eval_drop (1 / 2 - 0.001) (by norm_num) (by norm_num)]
  ext <;> simp <;> norm_num

/-- Length of that tangent. -/
theorem len_drop : Vec2.length (Gondola.derivative dropSpline (1 / 2)) = 1.499998 := by
  rw [deriv_drop]
  rw [Vec2.length_vert_neg (-1.499998) (by norm_num)]
  norm_num

/-- The normal of the vertical drop at its midpoint is horizontal. -/
theorem normal_drop : Gondola.normalAt dropSpline (1 / 2) = ⟨1, 0⟩ := by
  rw [Gondola.normalAt, len_drop, deriv_drop]
  ext <;> simp <;> norm_num

/-- The second finite difference of the vertical drop has zero x component. -/
theorem sd_drop_x : (Gondola.secondDerivative dropSpline (1 / 2)).x = 0 := by
  rw [Gondola.secondDerivative]
  rw [eval_drop (1 / 2 + 0.001) (by norm_num) (by norm_num),
    eval_drop (1 / 2) (by norm_num) (by norm_num),
    eval_drop (1 / 2 - 0.001) (by norm_num) (by norm_num)]
  simp

/-- The curvature of the vertical drop at its midpoint vanishes. -/
theorem curv_drop : Gondola.curvatureAt dropSpline (1 / 2) = 0 := by
  rw [Gondola.curvatureAt, sd_drop_x, deriv_drop]
  simp

/-- The total force on the vertical drop at its midpoint is exactly zero. -/
theorem force_drop : Gondola.totalForceAt dropSpline (1 / 2) = 0 := by
  rw [Gondola.totalForceAt, curv_drop, normal_drop]
  simp

/-- Evaluation on the vertical climb inside the domain. -/
theorem eval_climb (t : ℝ) (h0 : 0 ≤ t) (h1 : t ≤ 1) :
    climbSpline.evaluate t = ⟨0, 3 * t ^ 2 - 2 * t ^ 3⟩ := by
  rw [climbSpline, evaluate_pair _ _ t h0 h1]
  ext <;> simp

/-- The finite-difference tangent of the vertical climb at its midpoint. -/
theorem deriv_climb : Gondola.derivative climbSpline (1 / 2) = ⟨0, 1.499998⟩ := by
  rw [Gondola.derivative]
  rw [eval_climb (1 / 2 + 0.001) (by norm_num) (by norm_num),
    eval_climb (1 / 2 - 0.001) (by norm_num) (by norm_num)]
  ext <;> simp <;> norm_num

/-- Length of that tangent. -/
theorem len_climb : Vec2.length (Gondola.derivative climbSpline (1 / 2)) = 1.499998 := by
  rw [deriv_climb]
  exact Vec2.length_vert_pos _ (by norm_num)

/-- The normal of the vertical climb at its midpoint points in the negative
x direction. -/
theorem normal_climb : Gondola.normalAt climbSpline (1 / 2) = ⟨-1, 0⟩ := by
  rw [Gondola.normalAt, len_climb, deriv_climb]
  ext <;> simp <;> norm_num

/-! Unfoldings of the motion step. -/

/-- A step on a non-moving gondola changes nothing. -/
theorem animate_not_started (g : GState) (dt : ℝ) (hs : g.state ≠ Started) :
    Gondola.animate g dt = g := by
  rw [Gondola.animate, if_neg hs]

/-- A step across a degenerate tangent changes nothing. -/
theorem animate_degenerate (g : GState) (dt : ℝ) (hs : g.state = Started)
    (hlen : Vec2.length (Gondola.derivative g.spline g.progressAlongSpline) < EPSILON) :
    Gondola.animate g dt = g := by
  rw [Gondola.animate, if_pos hs]
  exact if_pos hlen

/-- A step on a moving gondola past the degeneracy guard: the two-way branch
on the total force, then on the domain bound. -/
theorem animate_started (g : GState) (dt : ℝ) (hs : g.state = Started)
    (hlen : ¬ Vec2.length (Gondola.derivative g.spline g.progressAlongSpline) < EPSILON) :
    Gondola.animate g dt =
      if Gondola.totalForceAt g.spline g.progressAlongSpline < 0 then
        { g with velocity := Gondola.speedAt g.spline g.progressAlongSpline, state := Fallen }
      else
        let newProgress := g.progressAlongSpline +
          Gondola.speedAt g.spline g.progressAlongSpline * dt /
            Vec2.length (Gondola.derivative g.spline g.progressAlongSpline)
        let g' := { g with velocity := Gondola.speedAt g.spline g.progressAlongSpline,
                           progressAlongSpline := newProgress,
                           position := g.spline.evaluate g.progressAlongSpline +
                             Gondola.normalAt g.spline g.progressAlongSpline * gondolaRadius,
                           rotationAngle := g.rotationAngle -
                             Gondola.speedAt g.spline g.progressAlongSpline / gondolaRadius * dt }
        if newProgress > g.spline.getKnots.getLastD 0 then { g' with state := Fallen } else g' := by
  rw [Gondola.animate, if_pos hs]
  exact if_neg hlen

/-- A moving, non-degenerate step with negative total force: the gondola
falls, with only the velocity and the state updated. -/
theorem animate_fall_force (g : GState) (dt : ℝ) (hs : g.state = Started)
    (hlen : ¬ Vec2.length (Gondola.derivative g.spline g.progressAlongSpline) < EPSILON)
    (hF : Gondola.totalForceAt g.spline g.progressAlongSpline < 0) :
    Gondola.animate g dt =
      { g with velocity := Gondola.speedAt g.spline g.progressAlongSpline,
               state := Fallen } := by
  rw [animate_started g dt hs hlen, if_pos hF]

/-- A moving, non-degenerate step with non-negative total force: the gondola
advances, and falls exactly when the new progress exceeds the last knot. -/
theorem animate_advance (g : GState) (dt : ℝ) (hs : g.state = Started)
    (hlen : ¬ Vec2.length (Gondola.derivative g.spline g.progressAlongSpline) < EPSILON)
    (hF : ¬ Gondola.totalForceAt g.spline g.progressAlongSpline < 0) :
    Gondola.animate g dt =
      if g.spline.lastKnot < Gondola.newProgressAt g.spline g.progressAlongSpline dt then
        { g with velocity := Gondola.speedAt g.spline g.progressAlongSpline,
                 progressAlongSpline := Gondola.newProgressAt g.spline g.progressAlongSpline dt,
                 position := g.spline.evaluate g.progressAlongSpline +
                   Gondola.normalAt g.spline g.progressAlongSpline * gondolaRadius,
                 rotationAngle := g.rotationAngle -
                   Gondola.speedAt g.spline g.progressAlongSpline / gondolaRadius * dt,
                 state := Fallen }
      else
        { g with velocity := Gondola.speedAt g.spline g.progressAlongSpline,
                 progressAlongSpline := Gondola.newProgressAt g.spline g.progressAlongSpline dt,
                 position := g.spline.evaluate g.progressAlongSpline +
                   Gondola.normalAt g.spline g.progressAlongSpline * gondolaRadius,
                 rotationAngle := g.rotationAngle -
                   Gondola.speedAt g.spline g.progressAlongSpline / gondolaRadius * dt } := by
  rw [animate_started g dt hs hlen, if_neg hF]
  rfl

/-- The recomputed speed is a square root, hence non-negative. -/
theorem speedAt_nonneg (sp : Spline) (t : ℝ) : 0 ≤ Gondola.speedAt sp t :=
  Real.sqrt_nonneg _

/-- With fewer than two control points the finite-difference tangent vanishes. -/
theorem derivative_small (sp : Spline) (t : ℝ) (h : sp.cps.length < 2) :
    Gondola.derivative sp t = ⟨0, 0⟩ := by
  rw [Gondola.derivative, evaluate_small _ _ h, evaluate_small _ _ h]
  ext <;> simp

/-- The zero vector has zero length. -/
theorem length_zero_vec : Vec2.length ⟨0, 0⟩ = 0 := by
  rw [Vec2.length]
  norm_num

/-- A launch command on a non-waiting gondola changes nothing. -/
theorem start_not_waiting (g : GState) (hs : g.state ≠ Waiting) :
    Gondola.start g = g := by
  rw [Gondola.start, if_neg hs]

/-- A launch command on a waiting gondola: the explicit result state. -/
theorem start_waiting (g : GState) (hs : g.state = Waiting) :
    Gondola.start g =
      { g with progressAlongSpline := 0.01, velocity := 0,
               position := g.spline.evaluate 0.01 +
                 (⟨-(Vec2.normalize (Gondola.derivative g.spline 0.01)).y,
                   (Vec2.normalize (Gondola.derivative g.spline 0.01)).x⟩ : Vec2) * gondolaRadius,
               rotationAngle := 0,
               energy := 40 * (g.spline.evaluate 0.01).y + 0.5, state := Started } := by
  rw [Gondola.start, if_pos hs]

/-- One operation step of `runOps`. -/
theorem runOps_cons (op : GOp) (ops : List GOp) (g : GState) :
    runOps (op :: ops) g =
      runOps ops (match op with
        | GOp.startOp => Gondola.start g
        | GOp.stepOp dt => Gondola.animate g dt) := rfl

/-- The launch command does not observe the stored energy: states agreeing on
everything but the energy keep agreeing after `start`. -/
theorem start_agree (g₁ g₂ : GState) (h : agreeExceptEnergy g₁ g₂) :
    agreeExceptEnergy (Gondola.start g₁) (Gondola.start g₂) := by
  obtain ⟨hsp, hpr, hv, hpos, hrot, hst⟩ := h
  by_cases hw : g₁.state = Waiting
  · have hw₂ : g₂.state = Waiting := by rw [← hst]; exact hw
    rw [start_waiting g₁ hw, start_waiting g₂ hw₂]
    exact ⟨hsp, rfl, rfl, by rw [hsp], rfl, rfl⟩
  · have hw₂ : g₂.state ≠ Waiting := by rw [← hst]; exact hw
    rw [start_not_waiting g₁ hw, start_not_waiting g₂ hw₂]
    exact ⟨hsp, hpr, hv, hpos, hrot, hst⟩

/-- The simulation step does not observe the stored energy. -/
theorem animate_agree (g₁ g₂ : GState) (dt : ℝ) (h : agreeExceptEnergy g₁ g₂) :
    agreeExceptEnergy (Gondola.animate g₁ dt) (Gondola.animate g₂ dt) := by
  obtain ⟨hsp, hpr, hv, hpos, hrot, hst⟩ := h
  by_cases hs : g₁.state = Started
  · have hs₂ : g₂.state = Started := by rw [← hst]; exact hs
    by_cases hlen : Vec2.length (Gondola.derivative g₁.spline g₁.progressAlongSpline) < EPSILON
    · rw [animate_degenerate g₁ dt hs hlen,
        animate_degenerate g₂ dt hs₂ (by rw [← hsp, ← hpr]; exact hlen)]
      exact ⟨hsp, hpr, hv, hpos, hrot, hst⟩
    · have hlen₂ : ¬ Vec2.length (Gondola.derivative g₂.spline g₂.progressAlongSpline) <
          EPSILON := by rw [← hsp, ← hpr]; exact hlen
      by_cases hF : Gondola.totalForceAt g₁.spline g₁.progressAlongSpline < 0
      · rw [animate_fall_force g₁ dt hs hlen hF,
          animate_fall_force g₂ dt hs₂ hlen₂ (by rw [← hsp, ← hpr]; exact hF)]
        exact ⟨hsp, hpr, by rw [hsp, hpr], hpos, hrot, rfl⟩
      · rw [animate_advance g₁ dt hs hlen hF,
          animate_advance g₂ dt hs₂ hlen₂ (by rw [← hsp, ← hpr]; exact hF)]
        by_cases hb : g₁.spline.lastKnot <
            Gondola.newProgressAt g₁.spline g₁.progressAlongSpline dt
        · rw [if_pos hb, if_pos (by rw [← hsp, ← hpr]; exact hb)]
          exact ⟨hsp, by rw [hsp, hpr], by rw [hsp, hpr],
            by rw [hsp, hpr], by rw [hsp, hpr, hrot], rfl⟩
        · rw [if_neg hb, if_neg (by rw [← hsp, ← hpr]; exact hb)]
          exact ⟨hsp, by rw [hsp, hpr], by rw [hsp, hpr],
            by rw [hsp, hpr], by rw [hsp, hpr, hrot], hst⟩
  · have hs₂ : g₂.state ≠ Started := by rw [← hst]; exact hs
    rw [animate_not_started g₁ dt hs, animate_not_started g₂ dt hs₂]
    exact ⟨hsp, hpr, hv, hpos, hrot, hst⟩

/-- A fallen gondola is inert under any single operation. -/
theorem op_fallen (g : GState) (op : GOp) (hF : g.state = Fallen) :
    (match op with
      | GOp.startOp => Gondola.start g
      | GOp.stepOp dt => Gondola.animate g dt) = g := by
  cases op with
  | startOp => exact start_not_waiting g (by rw [hF]; exact fun h => GondolaState.noConfusion h)
  | stepOp dt => exact animate_not_started g dt (by rw [hF]; exact fun h => GondolaState.noConfusion h)

/-- A fallen gondola is inert under any operation sequence. -/
theorem runOps_fallen (ops : List GOp) (g : GState) (hF : g.state = Fallen) :
    runOps ops g = g := by
  induction ops with
  | nil => rfl
  | cons op ops ih =>
    rw [runOps_cons, op_fallen g op hF]
    exact ih

/-! Claim theorems. -/

/-- Claim C7: for every sequence of addPoint calls starting from an empty
spline, the stored knot parameters are exactly `0, 1, 2, …` (the first point
receives 0, every later point the previous maximum plus one), hence they are
strictly increasing in insertion order, and for a nonempty spline the domain
minimum and maximum (first and last knot) are the first and last inserted
parameters `0` and `n - 1`. -/
theorem claim7_knots_are_naturals (ps : List Vec2) :
    (buildSpline ps).getKnots = (List.range ps.length).map (Nat.cast : ℕ → ℝ) ∧
    List.Chain' (· < ·) (buildSpline ps).getKnots ∧
    (ps ≠ [] →
      (buildSpline ps).getKnots.head? = some ((0 : ℕ) : ℝ) ∧
      (buildSpline ps).getKnots.getLast? = some ((ps.length - 1 : ℕ) : ℝ)) := by
  have hts : (buildSpline ps).getKnots = (List.range ps.length).map (Nat.cast : ℕ → ℝ) :=
    buildSpline_ts ps
  refine ⟨hts, ?_, ?_⟩
  · rw [hts]
    refine List.Pairwise.chain' (List.Pairwise.map _ ?_ (List.pairwise_lt_range ps.length))
    intro a b hab
    exact_mod_cast hab
  · intro hne
    obtain ⟨m, hm⟩ : ∃ m, ps.length = m + 1 :=
      ⟨ps.length - 1, (Nat.succ_pred_eq_of_pos (List.length_pos.mpr hne)).symm⟩
    constructor
    · rw [hts, hm, List.range_succ_eq_map]
      rfl
    · rw [hts, hm, List.range_succ, List.map_append]
      simp [List.getLast?_concat]

/-- Witness for C7 at a concrete three-point spline. -/
theorem claim7_witness :
    ([(⟨0, 0⟩ : Vec2), ⟨1, 1⟩, ⟨2, 0⟩] ≠ []) ∧
    (buildSpline [(⟨0, 0⟩ : Vec2), ⟨1, 1⟩, ⟨2, 0⟩]).getKnots.head? = some ((0 : ℕ) : ℝ) ∧
    (buildSpline [(⟨0, 0⟩ : Vec2), ⟨1, 1⟩, ⟨2, 0⟩]).getKnots.getLast? = some ((2 : ℕ) : ℝ) := by
  have hne : ([(⟨0, 0⟩ : Vec2), ⟨1, 1⟩, ⟨2, 0⟩] ≠ []) := by simp
  have h := (claim7_knots_are_naturals [(⟨0, 0⟩ : Vec2), ⟨1, 1⟩, ⟨2, 0⟩]).2.2 hne
  exact ⟨hne, h.1, h.2⟩

/-- Claim C4: a spline built by addPoint calls with at least two points
interpolates every knot: evaluation at the stored parameter of any inserted
control point returns exactly that control point's position. -/
theorem claim4_interpolates (ps : List Vec2) (i : ℕ) (h2 : 2 ≤ ps.length)
    (hi : i < ps.length) :
    (buildSpline ps).evaluate ((buildSpline ps).knot i) = ps.getD i ⟨0, 0⟩ := by
  rw [knot_build, if_pos hi]
  exact evaluate_at_nat ps i h2 hi

/-- Witness for C4 at the second point of a concrete two-point spline. -/
theorem claim4_witness :
    2 ≤ ([(⟨0, 0⟩ : Vec2), ⟨5, 7⟩] : List Vec2).length ∧
    1 < ([(⟨0, 0⟩ : Vec2), ⟨5, 7⟩] : List Vec2).length ∧
    (buildSpline [(⟨0, 0⟩ : Vec2), ⟨5, 7⟩]).evaluate
      ((buildSpline [(⟨0, 0⟩ : Vec2), ⟨5, 7⟩]).knot 1) = ⟨5, 7⟩ :=
  ⟨by simp, by simp, claim4_interpolates [⟨0, 0⟩, ⟨5, 7⟩] 1 (by simp) (by simp)⟩

/-- Counterexample to claim C1 as stated: on the two-point spline through
`(0,0)` and `(5,7)` the parameter `-1` lies strictly below the first knot `0`,
yet evaluation does NOT return the first control point `(0,0)` (it returns the
last one). -/
theorem claim1_counterexample :
    (-1 : ℝ) < (buildSpline [(⟨0, 0⟩ : Vec2), ⟨5, 7⟩]).knot 0 ∧
    (buildSpline [(⟨0, 0⟩ : Vec2), ⟨5, 7⟩]).evaluate (-1) ≠ (⟨0, 0⟩ : Vec2) := by
  have hk : (-1 : ℝ) < (buildSpline [(⟨0, 0⟩ : Vec2), ⟨5, 7⟩]).knot 0 := by
    rw [knot_build, if_pos (by norm_num)]
    norm_num
  refine ⟨hk, ?_⟩
  rw [evaluate_below [⟨0, 0⟩, ⟨5, 7⟩] (by simp) (-1) hk]
  intro h
  have := congrArg Vec2.x h
  simp at this

/-- Claim C1 amended: for every spline built by addPoint with at least two
control points, evaluation at a parameter strictly below the first knot or
strictly above the last knot returns the LAST control point's position (the
fall-through of the segment search returns `cps_.back()` on both sides; only
the above-domain side matches the claimed nearest-endpoint clamping). -/
theorem claim1_clamps_to_last (ps : List Vec2) (t : ℝ) (h2 : 2 ≤ ps.length)
    (ht : t < (buildSpline ps).knot 0 ∨ (buildSpline ps).lastKnot < t) :
    (buildSpline ps).evaluate t = ps.getLastD ⟨0, 0⟩ := by
  rcases ht with h | h
  · exact evaluate_below ps h2 t h
  · exact evaluate_above ps h2 t h

/-- Witness for the amended C1 below the domain of a concrete spline. -/
theorem claim1_witness :
    2 ≤ ([(⟨0, 0⟩ : Vec2), ⟨5, 7⟩] : List Vec2).length ∧
    ((-1 : ℝ) < (buildSpline [(⟨0, 0⟩ : Vec2), ⟨5, 7⟩]).knot 0 ∨
      (buildSpline [(⟨0, 0⟩ : Vec2), ⟨5, 7⟩]).lastKnot < (-1 : ℝ)) ∧
    (buildSpline [(⟨0, 0⟩ : Vec2), ⟨5, 7⟩]).evaluate (-1) = ⟨5, 7⟩ := by
  have hk : (-1 : ℝ) < (buildSpline [(⟨0, 0⟩ : Vec2), ⟨5, 7⟩]).knot 0 := by
    rw [knot_build, if_pos (by norm_num)]
    norm_num
  exact ⟨by simp, Or.inl hk,
    claim1_clamps_to_last [⟨0, 0⟩, ⟨5, 7⟩] (-1) (by simp) (Or.inl hk)⟩

/-- Claim C10: start() performs no path-validity check: on a spline with fewer
than 2 control points it still transitions Waiting to Started; every later step
is then a silent full no-op, because the degenerate-tangent guard fires (with
fewer than 2 points evaluation is constant zero, so the finite-difference
tangent has length 0 < EPSILON); consequently a tangent long enough to pass
the guard forces at least 2 control points, and a built spline has exactly as
many knots as control points, so the `back()` access happens only with a
nonempty knot vector. -/
theorem claim10_no_validity_check (g : GState) (dt : ℝ) (ps : List Vec2) :
    (g.spline.cps.length < 2 → g.state = Waiting → (Gondola.start g).state = Started) ∧
    (g.spline.cps.length < 2 → g.state = Started → Gondola.animate g dt = g) ∧
    (EPSILON ≤ Vec2.length (Gondola.derivative g.spline g.progressAlongSpline) →
      2 ≤ g.spline.cps.length) ∧
    ((buildSpline ps).getKnots.length = (buildSpline ps).cps.length) := by
  refine ⟨?_, ?_, ?_, ?_⟩
  · intro _ hw
    rw [start_waiting g hw]
  · intro hlt hs
    refine animate_degenerate g dt hs ?_
    rw [derivative_small g.spline g.progressAlongSpline hlt, length_zero_vec]
    rw [EPSILON]
    norm_num
  · intro hε
    by_contra hlt
    rw [derivative_small g.spline g.progressAlongSpline (by omega), length_zero_vec] at hε
    rw [EPSILON] at hε
    norm_num at hε
  · rw [Spline.getKnots, buildSpline_ts, buildSpline_cps]
    simp

/-- Witness for C10 on a one-point spline. -/
theorem claim10_witness :
    (Gondola.init (buildSpline [(⟨0, 0⟩ : Vec2)])).spline.cps.length < 2 ∧
    (Gondola.init (buildSpline [(⟨0, 0⟩ : Vec2)])).state = Waiting ∧
    (Gondola.start (Gondola.init (buildSpline [(⟨0, 0⟩ : Vec2)]))).state = Started ∧
    Gondola.animate { Gondola.init (buildSpline [(⟨0, 0⟩ : Vec2)]) with state := Started } 1 =
      { Gondola.init (buildSpline [(⟨0, 0⟩ : Vec2)]) with state := Started } ∧
    (buildSpline [(⟨0, 0⟩ : Vec2), ⟨1, 1⟩]).getKnots.length =
      (buildSpline [(⟨0, 0⟩ : Vec2), ⟨1, 1⟩]).cps.length := by
  have hlen : (Gondola.init (buildSpline [(⟨0, 0⟩ : Vec2)])).spline.cps.length < 2 := by
    show (buildSpline [(⟨0, 0⟩ : Vec2)]).cps.length < 2
    rw [buildSpline_cps]
    simp
  refine ⟨hlen, rfl, (claim10_no_validity_check _ 1 [(⟨0, 0⟩ : Vec2)]).1 hlen rfl, ?_, ?_⟩
  · exact (claim10_no_validity_check
      { Gondola.init (buildSpline [(⟨0, 0⟩ : Vec2)]) with state := Started } 1
      [(⟨0, 0⟩ : Vec2)]).2.1 hlen rfl
  · exact (claim10_no_validity_check (Gondola.init (buildSpline [(⟨0, 0⟩ : Vec2)])) 1
      [(⟨0, 0⟩ : Vec2), ⟨1, 1⟩]).2.2.2

/-- Claim C5 (code bug): the non-negativity of the speed fails in the very
case the claim singles out.  The moving gondola `gClimb`, halfway up a
two-point ascending track, passes the degeneracy guard (tangent length
1.499998), so `Gondola::animate` reaches the velocity recomputation; there
the current height (1/2) exceeds the reference height (0) and the argument of
the square root is exactly -20 < 0.  The C++ float `sqrt` of a negative
argument is NaN, which fails every ordered comparison, so the stored velocity
is not a non-negative value; the real-number model instead maps the same
argument to `Real.sqrt (-20) = 0`, which is why no refutation of the claimed
inequality is expressible inside this embedding. -/
theorem claim5_sqrt_argument_negative :
    gClimb.state = Started ∧
    EPSILON ≤ Vec2.length (Gondola.derivative gClimb.spline gClimb.progressAlongSpline) ∧
    (2 * GRAVITY *
        ((gClimb.spline.evaluate 0 +
            Gondola.normalAt gClimb.spline gClimb.progressAlongSpline * gondolaRadius).y -
          (gClimb.spline.evaluate gClimb.progressAlongSpline +
            Gondola.normalAt gClimb.spline gClimb.progressAlongSpline * gondolaRadius).y)) / 2 =
      -20 ∧
    (-20 : ℝ) < 0 ∧
    Gondola.speedAt gClimb.spline gClimb.progressAlongSpline = Real.sqrt (-20) := by
  have harg : (2 * GRAVITY *
      ((climbSpline.evaluate 0 + Gondola.normalAt climbSpline (1 / 2) * gondolaRadius).y -
        (climbSpline.evaluate (1 / 2) +
          Gondola.normalAt climbSpline (1 / 2) * gondolaRadius).y)) / 2 = -20 := by
    rw [normal_climb, eval_climb 0 (by norm_num) (by norm_num),
      eval_climb (1 / 2) (by norm_num) (by norm_num), GRAVITY, gondolaRadius]
    norm_num
  refine ⟨rfl, ?_, harg, by norm_num, ?_⟩
  · show EPSILON ≤ Vec2.length (Gondola.derivative climbSpline (1 / 2))
    rw [len_climb, EPSILON]
    norm_num
  · show Gondola.speedAt climbSpline (1 / 2) = Real.sqrt (-20)
    rw [Gondola.speedAt, harg]

/-- Claim C6: start() not in Idle changes no state; step not in Moving changes
no state; and once Departed, no later sequence of start and step calls changes
anything, so the phase is monotone along every call sequence. -/
theorem claim6_phase_monotone (g : GState) (dt : ℝ) (ops : List GOp) :
    (g.state ≠ Waiting → Gondola.start g = g) ∧
    (g.state ≠ Started → Gondola.animate g dt = g) ∧
    (g.state = Fallen → runOps ops g = g) :=
  ⟨start_not_waiting g, animate_not_started g dt, runOps_fallen ops g⟩

/-- Witness for C6 on a fallen gondola. -/
theorem claim6_witness :
    ({ Gondola.init lineSpline with state := Fallen } : GState).state ≠ Waiting ∧
    ({ Gondola.init lineSpline with state := Fallen } : GState).state ≠ Started ∧
    Gondola.start { Gondola.init lineSpline with state := Fallen } =
      { Gondola.init lineSpline with state := Fallen } ∧
    Gondola.animate { Gondola.init lineSpline with state := Fallen } 1 =
      { Gondola.init lineSpline with state := Fallen } ∧
    runOps [GOp.startOp, GOp.stepOp 1] { Gondola.init lineSpline with state := Fallen } =
      { Gondola.init lineSpline with state := Fallen } := by
  have hW : ({ Gondola.init lineSpline with state := Fallen } : GState).state ≠ Waiting := by
    intro h
    exact GondolaState.noConfusion h
  have hS : ({ Gondola.init lineSpline with state := Fallen } : GState).state ≠ Started := by
    intro h
    exact GondolaState.noConfusion h
  have h := claim6_phase_monotone { Gondola.init lineSpline with state := Fallen } 1
    [GOp.startOp, GOp.stepOp 1]
  exact ⟨hW, hS, h.1 hW, h.2.1 hS, h.2.2 rfl⟩

/-- Claim C9: the reference energy written by start() is never read: two
gondola states that differ only in the stored energy value stay in agreement
on the spline, progress, speed, position, heading and phase under every
subsequent sequence of start and step calls. -/
theorem claim9_energy_never_read (ops : List GOp) (g₁ g₂ : GState)
    (h : agreeExceptEnergy g₁ g₂) :
    agreeExceptEnergy (runOps ops g₁) (runOps ops g₂) := by
  induction ops generalizing g₁ g₂ with
  | nil => exact h
  | cons op ops ih =>
    rw [runOps_cons, runOps_cons]
    refine ih _ _ ?_
    cases op with
    | startOp => exact start_agree g₁ g₂ h
    | stepOp dt => exact animate_agree g₁ g₂ dt h

/-- Witness for C9: two initial gondolas whose stored energies differ. -/
theorem claim9_witness :
    agreeExceptEnergy (Gondola.init lineSpline)
      { Gondola.init lineSpline with energy := 5 } ∧
    agreeExceptEnergy
      (runOps [GOp.startOp, GOp.stepOp 1] (Gondola.init lineSpline))
      (runOps [GOp.startOp, GOp.stepOp 1] { Gondola.init lineSpline with energy := 5 }) := by
  have h : agreeExceptEnergy (Gondola.init lineSpline)
      { Gondola.init lineSpline with energy := 5 } :=
    ⟨rfl, rfl, rfl, rfl, rfl, rfl⟩
  exact ⟨h, claim9_energy_never_read [GOp.startOp, GOp.stepOp 1] _ _ h⟩

/-- Claim C2: for a moving gondola with a non-degenerate tangent, a single
step transitions to Fallen exactly when the total force is strictly negative
or the advanced progress strictly exceeds the last knot; under a negative
force the progress, position and heading are untouched; and when the total
force is exactly zero the update proceeds (strict comparison) and the gondola
stays Started unless the bound is exceeded. -/
theorem claim2_departure_condition (g : GState) (dt : ℝ) (hs : g.state = Started)
    (hlen : EPSILON ≤ Vec2.length (Gondola.derivative g.spline g.progressAlongSpline)) :
    ((Gondola.animate g dt).state = Fallen ↔
      (Gondola.totalForceAt g.spline g.progressAlongSpline < 0 ∨
        g.spline.lastKnot < Gondola.newProgressAt g.spline g.progressAlongSpline dt)) ∧
    (Gondola.totalForceAt g.spline g.progressAlongSpline < 0 →
      (Gondola.animate g dt).progressAlongSpline = g.progressAlongSpline ∧
      (Gondola.animate g dt).position = g.position ∧
      (Gondola.animate g dt).rotationAngle = g.rotationAngle) ∧
    (Gondola.totalForceAt g.spline g.progressAlongSpline = 0 →
      (Gondola.animate g dt).progressAlongSpline =
        Gondola.newProgressAt g.spline g.progressAlongSpline dt ∧
      (Gondola.animate g dt).position = g.spline.evaluate g.progressAlongSpline +
        Gondola.normalAt g.spline g.progressAlongSpline * gondolaRadius ∧
      (Gondola.animate g dt).rotationAngle = g.rotationAngle -
        Gondola.speedAt g.spline g.progressAlongSpline / gondolaRadius * dt ∧
      (¬ g.spline.lastKnot < Gondola.newProgressAt g.spline g.progressAlongSpline dt →
        (Gondola.animate g dt).state = Started)) := by
  have hlen' : ¬ Vec2.length (Gondola.derivative g.spline g.progressAlongSpline) < EPSILON :=
    not_lt.mpr hlen
  by_cases hF : Gondola.totalForceAt g.spline g.progressAlongSpline < 0
  · rw [animate_fall_force g dt hs hlen' hF]
    exact ⟨⟨fun _ => Or.inl hF, fun _ => rfl⟩,
      fun _ => ⟨rfl, rfl, rfl⟩,
      fun h0 => absurd hF (by rw [h0]; exact lt_irrefl 0)⟩
  · rw [animate_advance g dt hs hlen' hF]
    by_cases hb : g.spline.lastKnot < Gondola.newProgressAt g.spline g.progressAlongSpline dt
    · rw [if_pos hb]
      exact ⟨⟨fun _ => Or.inr hb, fun _ => rfl⟩,
        fun hF' => absurd hF' hF,
        fun _ => ⟨rfl, rfl, rfl, fun hnb => absurd hb hnb⟩⟩
    · rw [if_neg hb]
      refine ⟨⟨?_, ?_⟩, fun hF' => absurd hF' hF, fun _ => ⟨rfl, rfl, rfl, fun _ => hs⟩⟩
      · intro hFallen
        exact absurd (hs.symm.trans hFallen) (fun h => GondolaState.noConfusion h)
      · rintro (h | h)
        · exact absurd h hF
        · exact absurd h hb

/-- Witness for C2 on the flat-track gondola with a unit step. -/
theorem claim2_witness :
    gLine.state = Started ∧
    EPSILON ≤ Vec2.length (Gondola.derivative gLine.spline gLine.progressAlongSpline) ∧
    (((Gondola.animate gLine 1).state = Fallen ↔
      (Gondola.totalForceAt gLine.spline gLine.progressAlongSpline < 0 ∨
        gLine.spline.lastKnot <
          Gondola.newProgressAt gLine.spline gLine.progressAlongSpline 1)) ∧
    (Gondola.totalForceAt gLine.spline gLine.progressAlongSpline < 0 →
      (Gondola.animate gLine 1).progressAlongSpline = gLine.progressAlongSpline ∧
      (Gondola.animate gLine 1).position = gLine.position ∧
      (Gondola.animate gLine 1).rotationAngle = gLine.rotationAngle) ∧
    (Gondola.totalForceAt gLine.spline gLine.progressAlongSpline = 0 →
      (Gondola.animate gLine 1).progressAlongSpline =
        Gondola.newProgressAt gLine.spline gLine.progressAlongSpline 1 ∧
      (Gondola.animate gLine 1).position = gLine.spline.evaluate gLine.progressAlongSpline +
        Gondola.normalAt gLine.spline gLine.progressAlongSpline * gondolaRadius ∧
      (Gondola.animate gLine 1).rotationAngle = gLine.rotationAngle -
        Gondola.speedAt gLine.spline gLine.progressAlongSpline / gondolaRadius * 1 ∧
      (¬ gLine.spline.lastKnot <
          Gondola.newProgressAt gLine.spline gLine.progressAlongSpline 1 →
        (Gondola.animate gLine 1).state = Started))) := by
  have hlen : EPSILON ≤ Vec2.length (Gondola.derivative gLine.spline gLine.progressAlongSpline) := by
    show EPSILON ≤ Vec2.length (Gondola.derivative lineSpline (1 / 2))
    rw [len_line, EPSILON]
    norm_num
  exact ⟨rfl, hlen, claim2_departure_condition gLine 1 rfl hlen⟩

/-- Counterexample to claim C3 as stated: the moving gondola `gDrop` halfway
down the vertical drop passes the guard and the force check at `dt = 0`, and
the step rewrites its world position to the curve point plus the normal offset
at the current progress, which differs from the stored world position. -/
theorem claim3_counterexample :
    gDrop.state = Started ∧
    (Gondola.animate gDrop 0).position ≠ gDrop.position := by
  have hs : gDrop.state = Started := rfl
  have hlen : ¬ Vec2.length (Gondola.derivative gDrop.spline gDrop.progressAlongSpline) <
      EPSILON := by
    show ¬ Vec2.length (Gondola.derivative dropSpline (1 / 2)) < EPSILON
    rw [len_drop, EPSILON]
    norm_num
  have hF : ¬ Gondola.totalForceAt gDrop.spline gDrop.progressAlongSpline < 0 := by
    show ¬ Gondola.totalForceAt dropSpline (1 / 2) < 0
    rw [force_drop]
    exact lt_irrefl 0
  have hnp : Gondola.newProgressAt gDrop.spline gDrop.progressAlongSpline 0 = 1 / 2 := by
    show Gondola.newProgressAt dropSpline (1 / 2) 0 = 1 / 2
    rw [Gondola.newProgressAt]
    simp
  have hlast : gDrop.spline.lastKnot = 1 := by
    show dropSpline.lastKnot = 1
    rw [dropSpline, lastKnot_build _ (by simp)]
    simp
  have hb : ¬ gDrop.spline.lastKnot <
      Gondola.newProgressAt gDrop.spline gDrop.progressAlongSpline 0 := by
    rw [hlast, hnp]
    norm_num
  refine ⟨hs, ?_⟩
  rw [animate_advance gDrop 0 hs hlen hF, if_neg hb]
  show dropSpline.evaluate (1 / 2) + Gondola.normalAt dropSpline (1 / 2) * gondolaRadius ≠
    (⟨1, 0⟩ : Vec2)
  rw [eval_drop (1 / 2) (by norm_num) (by norm_num), normal_drop]
  intro h
  have hy := congrArg Vec2.y h
  rw [gondolaRadius] at hy
  simp at hy
  norm_num at hy

/-- Claim C3 amended: a zero-duration step on a moving gondola leaves the
arcParameter and the heading unchanged, and leaves the world position
unchanged exactly when the stored world position already equals the curve
point plus the normal offset at the current progress (which fails after any
progress-advancing step, because the stored position is computed from the
pre-advance progress). -/
theorem claim3_zero_dt_amended (g : GState) (hs : g.state = Started) :
    (Gondola.animate g 0).progressAlongSpline = g.progressAlongSpline ∧
    (Gondola.animate g 0).rotationAngle = g.rotationAngle ∧
    (g.position = g.spline.evaluate g.progressAlongSpline +
        Gondola.normalAt g.spline g.progressAlongSpline * gondolaRadius →
      (Gondola.animate g 0).position = g.position) := by
  by_cases hlen : Vec2.length (Gondola.derivative g.spline g.progressAlongSpline) < EPSILON
  · rw [animate_degenerate g 0 hs hlen]
    exact ⟨rfl, rfl, fun _ => rfl⟩
  · have hnp : Gondola.newProgressAt g.spline g.progressAlongSpline 0 =
        g.progressAlongSpline := by
      rw [Gondola.newProgressAt]
      simp
    by_cases hF : Gondola.totalForceAt g.spline g.progressAlongSpline < 0
    · rw [animate_fall_force g 0 hs hlen hF]
      exact ⟨rfl, rfl, fun _ => rfl⟩
    · rw [animate_advance g 0 hs hlen hF]
      split
      · exact ⟨hnp, by simp, fun hpos => hpos.symm⟩
      · exact ⟨hnp, by simp, fun hpos => hpos.symm⟩

/-- Witness for the amended C3 on the flat-track gondola. -/
theorem claim3_witness :
    gLine.state = Started ∧
    (Gondola.animate gLine 0).progressAlongSpline = gLine.progressAlongSpline ∧
    (Gondola.animate gLine 0).rotationAngle = gLine.rotationAngle :=
  ⟨rfl, (claim3_zero_dt_amended gLine rfl).1, (claim3_zero_dt_amended gLine rfl).2.1⟩

/-- Counterexample to claim C8 as stated: on the flat track the moving gondola
`gLine` passes the guard with force 40 and a positive step `dt = 1`, yet its
recomputed speed is zero (no height lost), so the arc parameter does not
strictly increase. -/
theorem claim8_counterexample :
    gLine.state = Started ∧
    EPSILON ≤ Vec2.length (Gondola.derivative gLine.spline gLine.progressAlongSpline) ∧
    ¬ Gondola.totalForceAt gLine.spline gLine.progressAlongSpline < 0 ∧
    (0 : ℝ) < 1 ∧
    ¬ gLine.progressAlongSpline < (Gondola.animate gLine 1).progressAlongSpline := by
  have hlen : EPSILON ≤ Vec2.length (Gondola.derivative gLine.spline gLine.progressAlongSpline) := by
    show EPSILON ≤ Vec2.length (Gondola.derivative lineSpline (1 / 2))
    rw [len_line, EPSILON]
    norm_num
  have hF : ¬ Gondola.totalForceAt gLine.spline gLine.progressAlongSpline < 0 := by
    show ¬ Gondola.totalForceAt lineSpline (1 / 2) < 0
    rw [force_line]
    norm_num
  have hnp : Gondola.newProgressAt gLine.spline gLine.progressAlongSpline 1 = 1 / 2 := by
    show Gondola.newProgressAt lineSpline (1 / 2) 1 = 1 / 2
    rw [Gondola.newProgressAt, speed_line]
    simp
  have hprog : (Gondola.animate gLine 1).progressAlongSpline = 1 / 2 := by
    rw [animate_advance gLine 1 rfl (not_lt.mpr hlen) hF]
    split
    · exact hnp
    · exact hnp
  refine ⟨rfl, hlen, hF, by norm_num, ?_⟩
  rw [hprog]
  show ¬ (1 / 2 : ℝ) < 1 / 2
  exact lt_irrefl _

/-- Claim C8 amended: for a moving, non-degenerate, non-falling step with
dt > 0 the arc parameter never decreases: it becomes exactly
`progress + speed·dt/|tangent|`, is greater than or equal to the old value,
and is strictly greater exactly when the recomputed speed is positive (on a
flat track the recomputed speed is 0 and the progress stalls). -/
theorem claim8_progress_monotone (g : GState) (dt : ℝ) (hs : g.state = Started)
    (hlen : EPSILON ≤ Vec2.length (Gondola.derivative g.spline g.progressAlongSpline))
    (hF : ¬ Gondola.totalForceAt g.spline g.progressAlongSpline < 0) (hdt : 0 < dt) :
    (Gondola.animate g dt).progressAlongSpline =
      Gondola.newProgressAt g.spline g.progressAlongSpline dt ∧
    g.progressAlongSpline ≤ (Gondola.animate g dt).progressAlongSpline ∧
    (g.progressAlongSpline < (Gondola.animate g dt).progressAlongSpline ↔
      0 < Gondola.speedAt g.spline g.progressAlongSpline) := by
  have hlp : (0 : ℝ) < Vec2.length (Gondola.derivative g.spline g.progressAlongSpline) :=
    lt_of_lt_of_le (by rw [EPSILON]; norm_num) hlen
  have hprog : (Gondola.animate g dt).progressAlongSpline =
      Gondola.newProgressAt g.spline g.progressAlongSpline dt := by
    rw [animate_advance g dt hs (not_lt.mpr hlen) hF]
    split
    · rfl
    · rfl
  refine ⟨hprog, ?_, ?_⟩
  · rw [hprog, Gondola.newProgressAt]
    have : 0 ≤ Gondola.speedAt g.spline g.progressAlongSpline * dt /
        Vec2.length (Gondola.derivative g.spline g.progressAlongSpline) :=
      div_nonneg (mul_nonneg (speedAt_nonneg _ _) (le_of_lt hdt)) (le_of_lt hlp)
    linarith
  · rw [hprog, Gondola.newProgressAt]
    constructor
    · intro h
      by_contra hv
      have hv0 : Gondola.speedAt g.spline g.progressAlongSpline = 0 :=
        le_antisymm (not_lt.mp hv) (speedAt_nonneg _ _)
      rw [hv0] at h
      simp at h
    · intro hv
      have : 0 < Gondola.speedAt g.spline g.progressAlongSpline * dt /
          Vec2.length (Gondola.derivative g.spline g.progressAlongSpline) :=
        div_pos (mul_pos hv hdt) hlp
      linarith

/-- Witness for the amended C8 on the flat-track gondola. -/
theorem claim8_witness :
    gLine.state = Started ∧
    EPSILON ≤ Vec2.length (Gondola.derivative gLine.spline gLine.progressAlongSpline) ∧
    ¬ Gondola.totalForceAt gLine.spline gLine.progressAlongSpline < 0 ∧
    (0 : ℝ) < 1 ∧
    gLine.progressAlongSpline ≤ (Gondola.animate gLine 1).progressAlongSpline := by
  have hlen : EPSILON ≤ Vec2.length (Gondola.derivative gLine.spline gLine.progressAlongSpline) := by
    show EPSILON ≤ Vec2.length (Gondola.derivative lineSpline (1 / 2))
    rw [len_line, EPSILON]
    norm_num
  have hF : ¬ Gondola.totalForceAt gLine.spline gLine.progressAlongSpline < 0 := by
    show ¬ Gondola.totalForceAt lineSpline (1 / 2) < 0
    rw [force_line]
    norm_num
  exact ⟨rfl, hlen, hF, by norm_num,
    (claim8_progress_monotone gLine 1 rfl hlen hF (by norm_num)).2.1⟩

end
